import Mathlib

/-!
Shallow embedding of the retrieval engine in `classic_ir/IRSystem.py`.

Python dictionaries (`defaultdict`) are modelled as association lists in
insertion order; a `defaultdict` access that misses appends the default
entry at the end, exactly as CPython inserts a fresh key.  Floating-point
scores are modelled over `ℚ` (only `len(...)/len(...)` divisions occur in
the source, which are exact).  Document identifiers are `ℕ`.
-/

namespace ClassicIR

/-- Python `str.lower()` restricted to the ASCII range, as `Char.toLower`. -/
def lowerStr (s : String) : String := String.mk (s.toList.map Char.toLower)

/-- Worker for `pySplit`: accumulates the current word (reversed). -/
def wordsAux : List Char → List Char → List String
  | [], acc => if acc.isEmpty then [] else [String.mk acc.reverse]
  | c :: cs, acc =>
    if c.isWhitespace then
      if acc.isEmpty then wordsAux cs [] else String.mk acc.reverse :: wordsAux cs []
    else wordsAux cs (c :: acc)

/-- Python `str.split()` with no argument: split on runs of whitespace and
drop empty fragments. -/
def pySplit (s : String) : List String := wordsAux s.toList []

/-- `self.alphanum.sub('', xx)` with `alphanum = re.compile('[^a-zA-Z0-9]')`:
remove every non-alphanumeric ASCII character. -/
def stripNonAlnum (s : String) : String := String.mk (s.toList.filter Char.isAlphanum)

/-- Python `str.strip()`: drop whitespace from both ends. -/
def pyStrip (s : String) : String :=
  String.mk (((s.toList.dropWhile Char.isWhitespace).reverse.dropWhile Char.isWhitespace).reverse)

/-- Lookup in an insertion-ordered association list (Python `dict` access
that is known to hit, or the probe half of a `defaultdict` access). -/
def dfind {α β : Type} [DecidableEq α] : List (α × β) → α → Option β
  | [], _ => none
  | (k, v) :: rest, k₁ => if k = k₁ then some v else dfind rest k₁

/-- Python `d[k] = v`: overwrite in place if the key exists, else append. -/
def dinsert {α β : Type} [DecidableEq α] : List (α × β) → α → β → List (α × β)
  | [], k, v => [(k, v)]
  | (k₀, v₀) :: rest, k, v =>
    if k₀ = k then (k, v) :: rest else (k₀, v₀) :: dinsert rest k v

/-- Python `defaultdict` read access `d[k]`: returns the stored value when
the key is present; otherwise inserts the default value under `k` (CPython
appends new keys at the end) and returns it. -/
def daccess {α β : Type} [DecidableEq α] (d : List (α × β)) (k : α) (dflt : β) :
    β × List (α × β) :=
  match dfind d k with
  | some v => (v, d)
  | none => (dflt, d ++ [(k, dflt)])

/-- The mutable fields of `IRSystem` that the indexed claims touch.
`tf` is `defaultdict(Counter)`, `invIndex` is `inverted_index`
(`defaultdict(set)` whose vocabulary entries are reassigned to lists),
`tfidf` is `defaultdict(Counter)` holding the weights. -/
structure IRState where
  titles : List String
  docs : List (List String)
  vocab : List String
  tf : List (ℕ × List (String × ℕ))
  invIndex : List (String × List ℕ)
  tfidf : List (ℕ × List (String × ℚ))
deriving DecidableEq

/-- `IRSystem.process_query`: lower-case, split on whitespace, strip
non-alphanumeric characters, stem.  The Porter stemmer lives outside the
core (external collaborator per the spec), so it is a parameter; note the
source has no step removing tokens that became empty. -/
def processQuery (stem : String → String) (queryStr : String) : List String :=
  ((pySplit (lowerStr queryStr)).map stripNonAlnum).map stem

/-- The per-line token pipeline of `IRSystem.__read_raw_data` up to (and
excluding) the stemming step: lower-case, split, strip, remove
non-alphanumerics, then drop the words that are now empty. -/
def docPreStem (line : String) : List String :=
  (((pySplit (lowerStr line)).map pyStrip).map stripNonAlnum).filter (fun t => !(t == ""))

/-- The full per-line document-side pipeline of `IRSystem.__read_raw_data`:
the empty-token filter runs before stemming. -/
def docLineTokens (stem : String → String) (line : String) : List String :=
  (docPreStem line).map stem

/-- `IRSystem.index` (the stub shipped in the source): resets `tf` to an
empty `defaultdict(Counter)` and sets `inverted_index[word] = list()` for
every vocabulary word.  No document is ever scanned, so every posting list
is left empty. -/
def indexFn (st : IRState) : IRState :=
  { st with tf := [], invIndex := st.vocab.map (fun w => (w, ([] : List ℕ))) }

/-- Ascending insertion used by `sortNat`. -/
def insAsc (x : ℕ) : List ℕ → List ℕ
  | [] => [x]
  | y :: ys => if x ≤ y then x :: y :: ys else y :: insAsc x ys

/-- Python `sorted` on a collection of document indices. -/
def sortNat (l : List ℕ) : List ℕ := l.foldr insAsc []

/-- `IRSystem.get_posting`: `sorted(self.inverted_index[word])`.  The
subscript is a `defaultdict` access, so a miss inserts an empty entry; the
updated state is returned alongside the result. -/
def getPosting (st : IRState) (word : String) : List ℕ × IRState :=
  let a := daccess st.invIndex word ([] : List ℕ)
  (sortNat a.1, { st with invIndex := a.2 })

/-- `IRSystem.boolean_retrieve` (the stub shipped in the source): the loop
copies `self.docs` wholesale and returns the copy — the query is ignored
and the returned values are the documents' token lists, not identifiers. -/
def booleanRetrieve (st : IRState) (_query : List String) : List (List String) :=
  st.docs.foldr (fun d acc => d :: acc) []

/-- `boolean_retrieve` as a state transformer: it reads only `self.docs`
and performs no `defaultdict` access, so the state passes through. -/
def booleanRetrieveS (st : IRState) (query : List String) :
    List (List String) × IRState :=
  (booleanRetrieve st query, st)

/-- `IRSystem.query_retrieve`: process the raw string, then boolean
retrieval. -/
def queryRetrieve (stem : String → String) (st : IRState) (queryStr : String) :
    List (List String) :=
  booleanRetrieve st (processQuery stem queryStr)

/-- One `self.tfidf[i][word] = 0.` store: the outer `defaultdict` access
creates the row when missing, then the inner assignment writes the zero. -/
def tfidfStore (t : List (ℕ × List (String × ℚ))) (i : ℕ) (w : String) :
    List (ℕ × List (String × ℚ)) :=
  match dfind t i with
  | some row => dinsert t i (dinsert row w 0)
  | none => t ++ [(i, [(w, (0 : ℚ))])]

/-- `IRSystem.compute_tfidf` (the stub shipped in the source): rebuilds
`self.tfidf` and stores the weight `0.` for every vocabulary word in every
document; the `try`/`except ValueError` stores `0.` on both paths.  No
document frequency or idf is ever computed. -/
def computeTfidf (st : IRState) : IRState :=
  let n := st.docs.length
  { st with
    tfidf := st.vocab.foldl
      (fun t w => (List.range n).foldl (fun t i => tfidfStore t i w) t) [] }

/-- `IRSystem.get_tfidf`: `self.tfidf[document][word]`.  The outer subscript
is a `defaultdict` access (a missing document inserts an empty row); the
inner one is a `Counter` lookup, which returns `0` without inserting. -/
def getTfidf (st : IRState) (word : String) (document : ℕ) : ℚ × IRState :=
  let a := daccess st.tfidf document ([] : List (String × ℚ))
  (((dfind a.1 word).getD 0), { st with tfidf := a.2 })

/-- `len(query_set & doc_set)`: the number of distinct terms common to the
query and the document. -/
def interCount (query doc : List String) : ℕ :=
  (query.dedup.filter (fun x => doc.dedup.contains x)).length

/-- `len(query_set | doc_set)`: the number of distinct terms occurring in
the query or the document. -/
def unionCount (query doc : List String) : ℕ :=
  (query.dedup ++ doc.dedup.filter (fun x => !query.dedup.contains x)).length

/-- The Jaccard score `rank_retrieve` computes for one document:
`len(query_set & doc_set) / len(query_set | doc_set)`, and `0.0` when the
union is empty.  The exact quotient of the two counts is formed with
`Rat.divInt` (equal to division in `ℚ`; see `Rat.divInt_eq_div`). -/
def jaccardScore (query doc : List String) : ℚ :=
  if unionCount query doc = 0 then 0
  else Rat.divInt (interCount query doc : ℤ) (unionCount query doc : ℤ)

/-- Stable descending insertion by score, matching the stability of
Python `sorted(..., key=lambda xx: xx[1], reverse=True)`. -/
def insertDesc (x : ℕ × ℚ) : List (ℕ × ℚ) → List (ℕ × ℚ)
  | [] => [x]
  | y :: ys => if y.2 ≤ x.2 then x :: y :: ys else y :: insertDesc x ys

/-- Stable sort by descending score (insertion sort; equal scores keep
their original relative order, i.e. ascending index here). -/
def sortDesc : List (ℕ × ℚ) → List (ℕ × ℚ)
  | [] => []
  | x :: xs => insertDesc x (sortDesc xs)

/-- `IRSystem.rank_retrieve`: Jaccard scores for every document, stable
descending sort of `enumerate(scores)`, then `results.append((ranking[i],
scores[ranking[i]]))` for `i in range(10)`.  The subscript `ranking[i]`
raises `IndexError` when the corpus has fewer than 10 documents, modelled
as `none`; no `top_k` parameter exists at this interface. -/
def rankRetrieve (st : IRState) (query : List String) :
    Option (List (ℕ × ℚ)) :=
  let scores := st.docs.map (fun doc => jaccardScore query doc)
  let ranking := (sortDesc scores.enum).map (fun p => p.1)
  if 10 ≤ st.docs.length then
    some ((List.range 10).map (fun i =>
      let r := (ranking.get? i).getD 0
      (r, (scores.get? r).getD 0)))
  else none

/-- `rank_retrieve` as a state transformer: it reads only `self.docs` and
performs no `defaultdict` access, so the state passes through. -/
def rankRetrieveS (st : IRState) (query : List String) :
    Option (List (ℕ × ℚ)) × IRState :=
  (rankRetrieve st query, st)

/-- `IRSystem.query_rank`: process the raw string, then ranked
retrieval. -/
def queryRank (stem : String → String) (st : IRState) (queryStr : String) :
    Option (List (ℕ × ℚ)) :=
  rankRetrieve st (processQuery stem queryStr)

/-- A one-document corpus (title `A`, tokens `[cat]`) after `index()`. -/
def st1 : IRState :=
  indexFn { titles := ["A"], docs := [["cat"]], vocab := ["cat"],
            tf := [], invIndex := [], tfidf := [] }

/-- A two-document corpus after `index()` and `compute_tfidf()`. -/
def st2 : IRState :=
  computeTfidf (indexFn
    { titles := ["A", "B"], docs := [["cat"], ["dog"]], vocab := ["cat", "dog"],
      tf := [], invIndex := [], tfidf := [] })

/-- A ten-document corpus (each document is `[cat]`) after `index()`. -/
def st10 : IRState :=
  indexFn { titles := List.replicate 10 "T", docs := List.replicate 10 ["cat"],
            vocab := ["cat"], tf := [], invIndex := [], tfidf := [] }

/-! ### Helper lemmas -/

/-- Looking a key up after appending a single entry: the appended entry is
seen only when the key misses the original list. -/
theorem dfind_append {α β : Type} [DecidableEq α]
    (d : List (α × β)) (k k₁ : α) (v : β) :
    dfind (d ++ [(k, v)]) k₁ =
      match dfind d k₁ with
      | some x => some x
      | none => if k = k₁ then some v else none := by
  induction d with
  | nil => simp [dfind]
  | cons p rest ih =>
    obtain ⟨k₀, v₀⟩ := p
    by_cases h : k₀ = k₁
    · simp [dfind, h]
    · simpa [dfind, h] using ih

/-- The value side of a `defaultdict` access is lookup-with-default. -/
theorem daccess_fst {α β : Type} [DecidableEq α]
    (d : List (α × β)) (k : α) (dflt : β) :
    (daccess d k dflt).1 = (dfind d k).getD dflt := by
  unfold daccess
  cases h : dfind d k <;> simp

/-- A `defaultdict` access that hits leaves the dictionary unchanged. -/
theorem daccess_snd_of_found {α β : Type} [DecidableEq α]
    (d : List (α × β)) (k : α) (dflt : β)
    (h : (dfind d k).isSome = true) :
    (daccess d k dflt).2 = d := by
  unfold daccess
  cases h₁ : dfind d k with
  | some v => simp
  | none => rw [h₁] at h; simp at h

/-- Lookups-with-default read through a `defaultdict` access: inserting the
default entry under `k` changes no defaulted lookup result. -/
theorem dfind_daccess_getD {α β : Type} [DecidableEq α]
    (d : List (α × β)) (k k₁ : α) (dflt : β) :
    (dfind (daccess d k dflt).2 k₁).getD dflt = (dfind d k₁).getD dflt := by
  unfold daccess
  cases h : dfind d k with
  | some v => simp
  | none =>
    simp only
    rw [dfind_append]
    cases h₁ : dfind d k₁ with
    | some x => simp
    | none => by_cases hk : k = k₁ <;> simp [hk]

/-- The `boolean_retrieve` loop copies `self.docs` element by element. -/
theorem booleanRetrieve_eq_docs (st : IRState) (q : List String) :
    booleanRetrieve st q = st.docs := by
  unfold booleanRetrieve
  induction st.docs with
  | nil => rfl
  | cons d rest ih => simp [ih]

/-- With at least ten documents, `rank_retrieve` returns a ten-entry
list. -/
theorem rankRetrieve_of_ten_docs (st : IRState) (q : List String)
    (h : 10 ≤ st.docs.length) :
    ∃ l, rankRetrieve st q = some l ∧ l.length = 10 := by
  simp only [rankRetrieve]
  rw [if_pos h]
  exact ⟨_, rfl, by simp⟩

/-- With fewer than ten documents, the subscript `ranking[i]` at `i = N`
raises `IndexError`, modelled as `none`. -/
theorem rankRetrieve_of_small_corpus (st : IRState) (q : List String)
    (h : st.docs.length < 10) :
    rankRetrieve st q = none := by
  unfold rankRetrieve
  rw [if_neg (by omega)]

/-- The intersection count never exceeds the union count. -/
theorem interCount_le_unionCount (q doc : List String) :
    interCount q doc ≤ unionCount q doc := by
  unfold interCount unionCount
  calc (q.dedup.filter (fun x => doc.dedup.contains x)).length
      ≤ q.dedup.length := List.length_filter_le _ _
    _ ≤ q.dedup.length + (doc.dedup.filter (fun x => !q.dedup.contains x)).length :=
        Nat.le_add_right _ _
    _ = _ := (List.length_append _ _).symm

/-- Jaccard scores are nonnegative. -/
theorem jaccardScore_nonneg (q doc : List String) :
    0 ≤ jaccardScore q doc := by
  unfold jaccardScore
  split
  · exact le_refl 0
  · rw [Rat.divInt_eq_div]
    positivity

/-- Jaccard scores never exceed one. -/
theorem jaccardScore_le_one (q doc : List String) :
    jaccardScore q doc ≤ 1 := by
  unfold jaccardScore
  split
  · exact zero_le_one
  · rename_i h
    rw [Rat.divInt_eq_div]
    rw [div_le_one (by exact_mod_cast Nat.pos_of_ne_zero h)]
    exact_mod_cast interCount_le_unionCount q doc

/-! ### Claim theorems -/

/-- C1: the claimed invariant — after index construction, `d` is in
`get_posting(t)` iff `t` occurs in document `d` — fails on the shipped
code: in the one-document corpus `st1` the term `cat` occurs once in
document 0, yet the `index()` stub leaves every posting list empty, so the
biconditional is false at `(t, d) = (cat, 0)`. -/
theorem c1_posting_invariant_fails :
    (getPosting st1 "cat").1 = [] ∧ (st1.docs.getD 0 []).count "cat" = 1 ∧
    ¬ (0 ∈ (getPosting st1 "cat").1 ↔ 0 < (st1.docs.getD 0 []).count "cat") := by
  decide

/-- C2: `boolean_retrieve` does not intersect posting lists: on the corpus
`st1` (single document `[cat]`) with query `[dog]` it returns the whole
corpus — and returns the documents' token lists, not document IDs — even
though no document contains `dog`.  The claimed result is the empty set. -/
theorem c2_boolean_retrieve_ignores_query :
    booleanRetrieve st1 ["dog"] = [["cat"]] ∧
    "dog" ∉ (["cat"] : List String) := by
  decide

/-- C3: `rank_retrieve` has no `top_k` parameter and always reads
`ranking[0..9]`: on a one-document corpus it raises `IndexError`
(modelled as `none`) instead of returning `min(top_k, 1)` entries. -/
theorem c3_rank_retrieve_crashes_on_small_corpus :
    rankRetrieve st1 ["cat"] = none ∧ st1.docs.length = 1 := by
  decide

/-- C4: `compute_tfidf` hardcodes every stored weight to `0.` and never
computes idf: in the two-document corpus `st2` the term `cat` has
`tf(0, cat) = 1` and `df(cat) = 1`, so the claimed weight is
`1 · log(2/1) ≠ 0`, but `get_tfidf(cat, 0)` returns `0`. -/
theorem c4_tfidf_weight_hardcoded_zero :
    (getTfidf st2 "cat" 0).1 = 0 ∧ (st2.docs.getD 0 []).count "cat" = 1 ∧
    (st2.invIndex.map (fun p => p.1)).count "cat" = 1 ∧ st2.docs.length = 2 ∧
    (1 : ℝ) * Real.log (2 / 1) ≠ 0 := by
  refine ⟨by decide, by decide, by decide, by decide, ?_⟩
  have h2 : (2 : ℝ) / 1 = 2 := by norm_num
  rw [h2, one_mul]
  exact ne_of_gt (Real.log_pos one_lt_two)

/-- C7: `get_posting` is total over arbitrary terms (it is a Lean function
on all of `String`), and a term absent from the posting table — in
particular any out-of-vocabulary term — yields the empty list rather than
a failure, because the table is a `defaultdict`. -/
theorem c7_unknown_term_posting_empty (st : IRState) (w : String)
    (h : dfind st.invIndex w = none) :
    (getPosting st w).1 = [] := by
  show sortNat (daccess st.invIndex w []).1 = []
  rw [daccess_fst, h]
  rfl

/-- Witness for C7 at a concrete out-of-vocabulary term. -/
theorem c7_unknown_term_posting_empty_witness :
    (getPosting st1 "dog").1 = [] :=
  c7_unknown_term_posting_empty st1 "dog" (by decide)

/-- C9: `rank_retrieve` returns exactly ten `(DocID, score)` pairs when
the corpus has at least ten documents, and fails with an out-of-range
indexing error (`none`, modelling `IndexError`) when it has fewer; the
embedded function, like the source, has no `top_k` parameter. -/
theorem c9_rank_retrieve_fixed_ten (st : IRState) (q : List String) :
    (10 ≤ st.docs.length → ∃ l, rankRetrieve st q = some l ∧ l.length = 10) ∧
    (st.docs.length < 10 → rankRetrieve st q = none) :=
  ⟨rankRetrieve_of_ten_docs st q, rankRetrieve_of_small_corpus st q⟩

/-- Witness for C9 on a ten-document corpus and on a one-document
corpus. -/
theorem c9_rank_retrieve_fixed_ten_witness :
    (∃ l, rankRetrieve st10 ["cat"] = some l ∧ l.length = 10) ∧
    rankRetrieve st1 ["a"] = none :=
  ⟨(c9_rank_retrieve_fixed_ten st10 ["cat"]).1 (by decide),
   (c9_rank_retrieve_fixed_ten st1 ["a"]).2 (by decide)⟩

/-- C5: every score in a `rank_retrieve` result lies in `[0, 1]`: each
entry's score is a Jaccard quotient `|q ∩ d| / |q ∪ d|` (or `0` when the
union is empty), which is nonnegative and at most one. -/
theorem c5_rank_scores_in_unit_interval (st : IRState) (query : List String)
    (p : ℕ × ℚ) (hp : p ∈ (rankRetrieve st query).getD []) :
    0 ≤ p.2 ∧ p.2 ≤ 1 := by
  have hbound : ∀ r : ℕ,
      0 ≤ ((st.docs.map (fun doc => jaccardScore query doc)).get? r).getD 0 ∧
      ((st.docs.map (fun doc => jaccardScore query doc)).get? r).getD 0 ≤ 1 := by
    intro r
    cases h : (st.docs.map (fun doc => jaccardScore query doc)).get? r with
    | none => simp
    | some s =>
      have hs : s ∈ st.docs.map (fun doc => jaccardScore query doc) :=
        List.get?_mem h
      obtain ⟨doc, -, rfl⟩ := List.mem_map.mp hs
      exact ⟨jaccardScore_nonneg query doc, jaccardScore_le_one query doc⟩
  by_cases hlen : 10 ≤ st.docs.length
  · simp only [rankRetrieve, if_pos hlen, Option.getD_some] at hp
    rw [List.mem_map] at hp
    obtain ⟨i, -, rfl⟩ := hp
    exact hbound _
  · rw [rankRetrieve_of_small_corpus st query (by omega)] at hp
    simp at hp

/-- Witness for C5: the pair `(0, 1)` is in the ranking of `[cat]` over
the ten-document corpus `st10`, and its score lies in `[0, 1]`. -/
theorem c5_rank_scores_in_unit_interval_witness :
    0 ≤ ((0, (1 : ℚ)) : ℕ × ℚ).2 ∧ ((0, (1 : ℚ)) : ℕ × ℚ).2 ≤ 1 :=
  c5_rank_scores_in_unit_interval st10 ["cat"] (0, 1) (by decide)

/-- C6 counterexample: the claim that query operations leave the index
state identical fails for an out-of-vocabulary term — `get_posting` on
`dog` against `st1` (vocabulary `[cat]`) inserts an empty entry into the
posting table via `defaultdict` autovivification, so the state after the
call differs from the state before it. -/
theorem c6_read_only_state_counterexample :
    (getPosting st1 "dog").2 ≠ st1 := by
  decide

/-- C6 (amended): query operations never change any observable lookup
result — after a `get_posting` (resp. `get_tfidf`) call every subsequent
`get_posting` (resp. `get_tfidf`) returns what it would have returned
before — and the state is bit-identical whenever the probed term is
already a key of the posting table (resp. the probed document already has
a weight row); `boolean_retrieve` and `rank_retrieve` never touch the
state.  Only an out-of-vocabulary `get_posting` or an unknown-document
`get_tfidf` mutates, by inserting an empty default entry. -/
theorem c6_queries_preserve_observable_state (st : IRState) (w w₁ : String)
    (d d₁ : ℕ) (q : List String) :
    (getPosting ((getPosting st w).2) w₁).1 = (getPosting st w₁).1 ∧
    (getTfidf ((getTfidf st w d).2) w₁ d₁).1 = (getTfidf st w₁ d₁).1 ∧
    ((dfind st.invIndex w).isSome = true → (getPosting st w).2 = st) ∧
    ((dfind st.tfidf d).isSome = true → (getTfidf st w d).2 = st) ∧
    (booleanRetrieveS st q).2 = st ∧
    (rankRetrieveS st q).2 = st := by
  refine ⟨?_, ?_, ?_, ?_, rfl, rfl⟩
  · show sortNat (daccess (daccess st.invIndex w []).2 w₁ []).1 =
      sortNat (daccess st.invIndex w₁ []).1
    rw [daccess_fst, daccess_fst, dfind_daccess_getD]
  · show (dfind (daccess (daccess st.tfidf d []).2 d₁ []).1 w₁).getD 0 =
      (dfind (daccess st.tfidf d₁ []).1 w₁).getD 0
    rw [daccess_fst, daccess_fst, dfind_daccess_getD]
  · intro h
    show ({ st with invIndex := (daccess st.invIndex w []).2 } : IRState) = st
    rw [daccess_snd_of_found _ _ _ h]
  · intro h
    show ({ st with tfidf := (daccess st.tfidf d []).2 } : IRState) = st
    rw [daccess_snd_of_found _ _ _ h]

/-- Witness for the amended C6: probing the in-vocabulary term `cat`
leaves `st1` bit-identical. -/
theorem c6_queries_preserve_observable_state_witness :
    (getPosting st1 "cat").2 = st1 :=
  (c6_queries_preserve_observable_state st1 "cat" "cat" 0 0 []).2.2.1 (by decide)

/-- C8 counterexample: an empty raw query string is not rejected by either
entry point — `query_retrieve` returns the entire corpus and `query_rank`
returns a full ten-entry ranking, so retrieval computation runs and
results are returned. -/
theorem c8_empty_query_not_rejected :
    queryRetrieve id st1 "" = [["cat"]] ∧
    queryRank id st10 "" =
      some [(0, 0), (1, 0), (2, 0), (3, 0), (4, 0),
            (5, 0), (6, 0), (7, 0), (8, 0), (9, 0)] := by
  decide

/-- C8 (amended): neither entry point validates the raw query string: an
empty string is processed into an empty token list and retrieval runs
normally — `query_retrieve` returns the full corpus (the
`boolean_retrieve` stub) and, whenever the corpus has at least ten
documents, `query_rank` returns its usual ten-entry ranking. -/
theorem c8_empty_query_flows_through (stem : String → String) (st : IRState) :
    queryRetrieve stem st "" = st.docs ∧
    (10 ≤ st.docs.length →
      ∃ l, queryRank stem st "" = some l ∧ l.length = 10) :=
  ⟨booleanRetrieve_eq_docs st _, fun h => rankRetrieve_of_ten_docs st _ h⟩

/-- Witness for the amended C8 on the ten-document corpus. -/
theorem c8_empty_query_flows_through_witness :
    ∃ l, queryRank id st10 "" = some l ∧ l.length = 10 :=
  (c8_empty_query_flows_through id st10).2 (by decide)

/-- C10: `process_query` has no step dropping tokens that became empty
after stripping non-alphanumerics: if the `i`-th whitespace-separated word
of the lowered query strips to the empty string, the `i`-th processed
token is the stem of the empty string; the document-side pipeline of
`__read_raw_data` instead filters empty tokens out before stemming, so the
empty string never reaches its stem stage. -/
theorem c10_process_query_keeps_empty_tokens (stem : String → String)
    (s w : String) (i : ℕ)
    (hw : (pySplit (lowerStr s)).get? i = some w)
    (hempty : stripNonAlnum w = "") :
    (processQuery stem s).get? i = some (stem "") ∧ "" ∉ docPreStem s := by
  constructor
  · unfold processQuery
    rw [List.get?_map, List.get?_map, hw]
    simp [hempty]
  · intro hmem
    unfold docPreStem at hmem
    rw [List.mem_filter] at hmem
    simp at hmem

/-- Witness for C10: in the query `cat &&& dog` the middle word strips to
the empty string; `process_query` keeps its stem in position 1 while the
document-side pipeline drops it before stemming. -/
theorem c10_process_query_keeps_empty_tokens_witness :
    (processQuery id "cat &&& dog").get? 1 = some "" ∧
    "" ∉ docPreStem "cat &&& dog" :=
  c10_process_query_keeps_empty_tokens id "cat &&& dog" "&&&" 1
    (by decide) (by decide)

end ClassicIR
